import Mathlib

/-!
Shallow embedding of the EuRoC-rs dataset-accessor library.

The embedding follows the Rust source files `camera.rs`, `common.rs`,
`ground_truth.rs`, `imu.rs`, `position.rs` and `lib.rs`:

* IEEE-754 doubles are modelled by exact rationals (`Rat`): the library performs
  no floating-point arithmetic on descriptor or log values — every double is
  produced by parsing a decimal string and is only moved, packed and compared,
  so the exact rational value carries all observable information.
* Rust `Result`/panic outcomes are modelled by `Res`: `ok`, `err` (a returned
  `Err` value, as produced by the `?` operator and `anyhow`), and `panicked`
  (an `unwrap`, `assert!` or out-of-bounds index panic).
* The file system seen by one sensor folder is modelled by `FolderFS`: the
  existence flags probed by the constructors' `ensure!` checks, the outcome of
  reading and YAML-scanning `sensor.yaml`, the rows of `data.csv` (or `none`
  when `File::open` fails), and the image files of the `data/` directory keyed
  by the relative file name appearing in column 1 of the log.
* The `csv` crate with its default configuration treats the first row as a
  header which sets the expected field count; later rows whose field count
  differs are yielded as per-record errors (`UnequalLengths`) and rows of equal
  length are yielded as string records.  `csv::StringRecord`'s index operator
  panics when the column index is out of bounds.
* `yaml_rust::Yaml`'s `Index<&str>` returns `BadValue` for a missing key or a
  non-hash receiver; `as_vec`/`as_i64`/`as_f64` return `Option` values and
  `as_f64` succeeds only on `Real` scalars (`Real` carries the parsed value
  here; the loader only tags scalars `Real` when they parse as floats).
-/

/-- Numeric value of a decimal digit character, `none` for any other character.
Mirrors the per-character acceptance of Rust's integer/float `FromStr`. -/
def digitVal (c : Char) : Option Nat :=
  if c.isDigit then some (c.toNat - 48) else none

/-- Accumulate a digit string left to right; fails on any non-digit. -/
def digitsToNatAux : List Char → Nat → Option Nat
  | [], acc => some acc
  | c :: cs, acc =>
    match digitVal c with
    | some d => digitsToNatAux cs (10 * acc + d)
    | none => none

/-- Value of a non-empty all-digit character list. -/
def digitsToNat (cs : List Char) : Option Nat :=
  if cs.isEmpty then none else digitsToNatAux cs 0

/-- Model of `str::parse::<u64>()`: optional leading plus sign, then a
non-empty digit string whose value fits in 64 bits. -/
def parseU64 (s : String) : Option Nat :=
  let cs :=
    match s.data with
    | '+' :: rest => rest
    | cs => cs
  match digitsToNat cs with
  | some n => if n < 2 ^ 64 then some n else none
  | none => none

/-- Split a character list at the first exponent marker `e` or `E`. -/
def splitOnExp : List Char → List Char × Option (List Char)
  | [] => ([], none)
  | c :: cs =>
    if c = 'e' ∨ c = 'E' then ([], some cs)
    else
      let p := splitOnExp cs
      (c :: p.1, p.2)

/-- Split a character list at the first decimal point. -/
def splitOnDot : List Char → List Char × Option (List Char)
  | [] => ([], none)
  | c :: cs =>
    if c = '.' then ([], some cs)
    else
      let p := splitOnDot cs
      (c :: p.1, p.2)

/-- Strip an optional sign, returning the sign as `1` or `-1`. -/
def parseSign : List Char → Int × List Char
  | '+' :: cs => (1, cs)
  | '-' :: cs => (-1, cs)
  | cs => (1, cs)

/-- Mantissa of a decimal float literal: digits with at most one decimal
point and at least one digit overall. -/
def parseMantissa (cs : List Char) : Option Rat :=
  match splitOnDot cs with
  | (ip, none) =>
    match digitsToNat ip with
    | some n => some (n : Rat)
    | none => none
  | (ip, some fp) =>
    if ip.isEmpty && fp.isEmpty then none
    else if ip.all Char.isDigit && fp.all Char.isDigit then
      match digitsToNatAux (ip ++ fp) 0 with
      | some n => some ((n : Rat) / (10 : Rat) ^ fp.length)
      | none => none
    else none

/-- Model of `str::parse::<f64>()` on finite decimal literals: optional sign,
mantissa, optional exponent.  (The special literals `inf`/`NaN` accepted by
Rust have no rational counterpart and never occur in this dataset's logs.) -/
def parseF64 (s : String) : Option Rat :=
  let sp := parseSign s.data
  let me := splitOnExp sp.2
  match parseMantissa me.1 with
  | none => none
  | some m =>
    match me.2 with
    | none => some ((sp.1 : Rat) * m)
    | some ecs =>
      let esp := parseSign ecs
      match digitsToNat esp.2 with
      | some e =>
        if esp.1 = 1 then some ((sp.1 : Rat) * m * (10 : Rat) ^ e)
        else some ((sp.1 : Rat) * m / (10 : Rat) ^ e)
      | none => none

/-- Model of `yaml_rust::Yaml` restricted to the shapes this library consumes;
hash keys are strings in every descriptor file. `real` carries the parsed
numeric value of the scalar. -/
inductive Yaml where
  | real : Rat → Yaml
  | int : Int → Yaml
  | str : String → Yaml
  | boolean : Bool → Yaml
  | arr : List Yaml → Yaml
  | hash : List (String × Yaml) → Yaml
  | null : Yaml
  | badValue : Yaml

/-- First value bound to a key in an association list (hash lookup). -/
def lookupKey : List (String × Yaml) → String → Option Yaml
  | [], _ => none
  | (k, v) :: rest, key => if k = key then some v else lookupKey rest key

/-- Model of `Yaml`'s `Index<&str>` operator: hash lookup defaulting to
`BadValue`, and `BadValue` on a non-hash receiver. -/
def Yaml.idx : Yaml → String → Yaml
  | .hash h, key => (lookupKey h key).getD .badValue
  | _, _ => .badValue

/-- Model of `Yaml::as_vec`. -/
def Yaml.as_vec : Yaml → Option (List Yaml)
  | .arr v => some v
  | _ => none

/-- Model of `Yaml::as_i64`. -/
def Yaml.as_i64 : Yaml → Option Int
  | .int v => some v
  | _ => none

/-- Model of `Yaml::as_f64`: succeeds only on `Real` scalars. -/
def Yaml.as_f64 : Yaml → Option Rat
  | .real v => some v
  | _ => none

/-- Error values returned (as `anyhow::Error`) by the library's fallible
operations, classified by their origin. -/
inductive Err where
  | ioOpen : Err
  | yamlScan : Err
  | csvRow : Err
  | parseIntCol : Err
  | parseFloatCol : Err
  | imageOpen : Err
deriving DecidableEq

/-- Outcome of running a piece of Rust code: a returned value, a returned
error value, or a panic (`unwrap` on `None`/`Err`, a failed `assert!`, or an
out-of-bounds index). -/
inductive Res (α : Type) where
  | ok : α → Res α
  | err : Err → Res α
  | panicked : Res α
deriving DecidableEq

/-- Sequencing of fallible Rust code (the `?` operator); panics propagate. -/
def Res.bind : Res α → (α → Res β) → Res β
  | .ok a, f => f a
  | .err e, _ => .err e
  | .panicked, _ => .panicked

/-- Model of `Option::unwrap`: panics on `None`. -/
def unwrapOpt : Option α → Res α
  | some a => .ok a
  | none => .panicked

/-- Outcome of `load_yaml` on `sensor.yaml`: `read_to_string` failure,
`YamlLoader` scan failure, or the parsed document list. -/
inductive YamlLoad where
  | ioFail : YamlLoad
  | scanFail : YamlLoad
  | docs : List Yaml → YamlLoad

/-- Decoded image payload (`image::DynamicImage`), reduced to the dimensions
observed by the library's tests. -/
structure Image where
  width : Nat
  height : Nat
deriving DecidableEq

/-- The file-system contents a sensor folder path denotes: the existence
flags probed by `ensure!`, the `sensor.yaml` load outcome, the rows of
`data.csv` as pre-split cells (or `none` when opening fails), and the image
files of `data/` keyed by relative file name. -/
structure FolderFS where
  isDir : Bool
  dataIsDir : Bool
  dataCsvIsFile : Bool
  sensorYamlIsFile : Bool
  sensorYaml : YamlLoad
  dataCsv : Option (List (List String))
  images : String → Option Image

/-- Model of `load_yaml(self.path.join(SENSOR_YAML))` with `?` applied:
both failure stages surface as returned errors. -/
def FolderFS.loadSensorYaml (f : FolderFS) : Res (List Yaml) :=
  match f.sensorYaml with
  | .ioFail => .err .ioOpen
  | .scanFail => .err .yamlScan
  | .docs ds => .ok ds

/-- Model of `docs[0]` on the `Vec` of YAML documents: panics when the
parser yielded zero documents. -/
def docZero : List Yaml → Res Yaml
  | [] => .panicked
  | d :: _ => .ok d

/-- Per-element body of `image_size`'s map: `as_i64().unwrap()` followed by
`try_into::<u32>().unwrap()` (the latter panics when narrowing is lossy). -/
def i64ToU32 (n : Int) : Res Nat :=
  if 0 ≤ n ∧ n < 2 ^ 32 then .ok n.toNat else .panicked

/-- The collected `map` of `image_size`: unwrap each element as `i64`, then
narrow to `u32`, panicking at the first failure. -/
def mapResolution : List Yaml → Res (List Nat)
  | [] => .ok []
  | y :: ys =>
    (unwrapOpt y.as_i64).bind fun n =>
    (i64ToU32 n).bind fun u =>
    (mapResolution ys).bind fun us =>
    .ok (u :: us)

/-- The collected `map` of the float-sequence accessors: unwrap each element
as `f64`, panicking at the first failure. -/
def mapUnwrapF64 : List Yaml → Res (List Rat)
  | [] => .ok []
  | y :: ys =>
    (unwrapOpt y.as_f64).bind fun q =>
    (mapUnwrapF64 ys).bind fun qs =>
    .ok (q :: qs)

/-- Layout-validation errors produced by the constructors' `ensure!` checks;
each value records which required entry was found missing (the `ensure!`
message names the failed condition). -/
inductive LayoutErr where
  | notDir : LayoutErr
  | dataNotDir : LayoutErr
  | dataCsvNotFile : LayoutErr
  | sensorYamlNotFile : LayoutErr
deriving DecidableEq

/-- Model of `CameraRecords`: the validated folder (path plus the disk
contents it denotes). -/
structure CameraRecords where
  fs : FolderFS

/-- Model of `CameraRecords::new`: the four `ensure!` checks in source
order. -/
def CameraRecords.new (f : FolderFS) : Except LayoutErr CameraRecords :=
  if !f.isDir then .error .notDir
  else if !f.dataIsDir then .error .dataNotDir
  else if !f.dataCsvIsFile then .error .dataCsvNotFile
  else if !f.sensorYamlIsFile then .error .sensorYamlNotFile
  else .ok ⟨f⟩

/-- Model of `ImuData`. -/
structure ImuData where
  fs : FolderFS

/-- Model of `ImuData::new`: three `ensure!` checks (no image directory). -/
def ImuData.new (f : FolderFS) : Except LayoutErr ImuData :=
  if !f.isDir then .error .notDir
  else if !f.dataCsvIsFile then .error .dataCsvNotFile
  else if !f.sensorYamlIsFile then .error .sensorYamlNotFile
  else .ok ⟨f⟩

/-- Model of `GroundTruthData`. -/
structure GroundTruthData where
  fs : FolderFS

/-- Model of `GroundTruthData::new`. -/
def GroundTruthData.new (f : FolderFS) : Except LayoutErr GroundTruthData :=
  if !f.isDir then .error .notDir
  else if !f.dataCsvIsFile then .error .dataCsvNotFile
  else if !f.sensorYamlIsFile then .error .sensorYamlNotFile
  else .ok ⟨f⟩

/-- Model of `PositionData`. -/
structure PositionData where
  fs : FolderFS

/-- Model of `PositionData::new`. -/
def PositionData.new (f : FolderFS) : Except LayoutErr PositionData :=
  if !f.isDir then .error .notDir
  else if !f.dataCsvIsFile then .error .dataCsvNotFile
  else if !f.sensorYamlIsFile then .error .sensorYamlNotFile
  else .ok ⟨f⟩

/-- Model of `CameraRecords::image_size`: look up `resolution` in document 0,
unwrap it as a sequence, convert each element via `as_i64().unwrap()` and a
checked narrowing to `u32` that is then unwrapped, assert the length is 2,
and index elements 0 and 1. -/
def CameraRecords.image_size (cam : CameraRecords) : Res (Nat × Nat) :=
  (cam.fs.loadSensorYaml).bind fun docs =>
  (docZero docs).bind fun doc =>
  (unwrapOpt (doc.idx "resolution").as_vec).bind fun vs =>
  (mapResolution vs).bind fun data =>
  match data with
  | [w, h] => .ok (w, h)
  | _ => .panicked

/-- Model of `CameraRecords::intrinsics`: the `intrinsics` key as a sequence
of four floats, returned as the tuple (fu, fv, cu, cv). -/
def CameraRecords.intrinsics (cam : CameraRecords) : Res (Rat × Rat × Rat × Rat) :=
  (cam.fs.loadSensorYaml).bind fun docs =>
  (docZero docs).bind fun doc =>
  (unwrapOpt (doc.idx "intrinsics").as_vec).bind fun vs =>
  (mapUnwrapF64 vs).bind fun data =>
  match data with
  | [fu, fv, cu, cv] => .ok (fu, fv, cu, cv)
  | _ => .panicked

/-- A 3x3 matrix of doubles (`nalgebra::Matrix3<f64>`), listed row-major. -/
structure Mat3 where
  m00 : Rat
  m01 : Rat
  m02 : Rat
  m10 : Rat
  m11 : Rat
  m12 : Rat
  m20 : Rat
  m21 : Rat
  m22 : Rat
deriving DecidableEq

/-- Model of `CameraRecords::camera_matrix`: pack `intrinsics()`'s output
into the pinhole matrix rows (fu 0 cu / 0 fv cv / 0 0 1). -/
def CameraRecords.camera_matrix (cam : CameraRecords) : Res Mat3 :=
  (cam.intrinsics).bind fun v =>
  match v with
  | (fu, fv, cu, cv) => .ok ⟨fu, 0, cu, 0, fv, cv, 0, 0, 1⟩

/-- A 4-vector of doubles (`nalgebra::Vector4<f64>`). -/
structure Vec4 where
  x0 : Rat
  x1 : Rat
  x2 : Rat
  x3 : Rat
deriving DecidableEq

/-- Model of `CameraRecords::distrotion_coeff`: the
`distortion_coefficients` key as a sequence of four floats. -/
def CameraRecords.distrotion_coeff (cam : CameraRecords) : Res Vec4 :=
  (cam.fs.loadSensorYaml).bind fun docs =>
  (docZero docs).bind fun doc =>
  (unwrapOpt (doc.idx "distortion_coefficients").as_vec).bind fun vs =>
  (mapUnwrapF64 vs).bind fun data =>
  match data with
  | [a, b, c, d] => .ok ⟨a, b, c, d⟩
  | _ => .panicked

/-- A 4x4 matrix of doubles in row-major order
(`nalgebra::Matrix4::from_row_slice`). -/
structure Mat4 where
  rowMajor : List Rat
deriving DecidableEq

/-- Model of `CameraRecords::extrinsics`: `T_BS.data` as a sequence of 16
floats, asserted to have length 16 and packed row-major. -/
def CameraRecords.extrinsics (cam : CameraRecords) : Res Mat4 :=
  (cam.fs.loadSensorYaml).bind fun docs =>
  (docZero docs).bind fun doc =>
  (unwrapOpt ((doc.idx "T_BS").idx "data").as_vec).bind fun vs =>
  (mapUnwrapF64 vs).bind fun data =>
  if data.length = 16 then .ok ⟨data⟩ else .panicked

/-- Model of `ImuData::extrinsics` (same text as the camera variant in its
own source file). -/
def ImuData.extrinsics (d : ImuData) : Res Mat4 :=
  (d.fs.loadSensorYaml).bind fun docs =>
  (docZero docs).bind fun doc =>
  (unwrapOpt ((doc.idx "T_BS").idx "data").as_vec).bind fun vs =>
  (mapUnwrapF64 vs).bind fun data =>
  if data.length = 16 then .ok ⟨data⟩ else .panicked

/-- Model of `GroundTruthData::extrinsics`. -/
def GroundTruthData.extrinsics (d : GroundTruthData) : Res Mat4 :=
  (d.fs.loadSensorYaml).bind fun docs =>
  (docZero docs).bind fun doc =>
  (unwrapOpt ((doc.idx "T_BS").idx "data").as_vec).bind fun vs =>
  (mapUnwrapF64 vs).bind fun data =>
  if data.length = 16 then .ok ⟨data⟩ else .panicked

/-- Model of `PositionData::extrinsics`. -/
def PositionData.extrinsics (d : PositionData) : Res Mat4 :=
  (d.fs.loadSensorYaml).bind fun docs =>
  (docZero docs).bind fun doc =>
  (unwrapOpt ((doc.idx "T_BS").idx "data").as_vec).bind fun vs =>
  (mapUnwrapF64 vs).bind fun data =>
  if data.length = 16 then .ok ⟨data⟩ else .panicked

/-- Model of `ImuData::gyro_noise_density`: the scalar
`gyroscope_noise_density`, unwrapped as `f64`. -/
def ImuData.gyro_noise_density (d : ImuData) : Res Rat :=
  (d.fs.loadSensorYaml).bind fun docs =>
  (docZero docs).bind fun doc =>
  unwrapOpt (doc.idx "gyroscope_noise_density").as_f64

/-- Model of `ImuData::gyro_random_walk`. -/
def ImuData.gyro_random_walk (d : ImuData) : Res Rat :=
  (d.fs.loadSensorYaml).bind fun docs =>
  (docZero docs).bind fun doc =>
  unwrapOpt (doc.idx "gyroscope_random_walk").as_f64

/-- Model of `ImuData::accel_noise_density`. -/
def ImuData.accel_noise_density (d : ImuData) : Res Rat :=
  (d.fs.loadSensorYaml).bind fun docs =>
  (docZero docs).bind fun doc =>
  unwrapOpt (doc.idx "accelerometer_noise_density").as_f64

/-- Model of `ImuData::accel_random_walk`. -/
def ImuData.accel_random_walk (d : ImuData) : Res Rat :=
  (d.fs.loadSensorYaml).bind fun docs =>
  (docZero docs).bind fun doc =>
  unwrapOpt (doc.idx "accelerometer_random_walk").as_f64

/-- The items yielded by `csv::Reader::from_reader(f).into_records()` with
the default configuration: the first row is consumed as the header and sets
the expected field count; each later row is yielded in file order, as an
`UnequalLengths` error when its field count differs from the header's and as
a string record otherwise.  An empty file yields no items. -/
def csvItems (rows : List (List String)) : List (Except Err (List String)) :=
  match rows with
  | [] => []
  | hdr :: rest =>
    rest.map fun r => if r.length = hdr.length then .ok r else .error .csvRow

/-- Model of `Timestamp`: a 64-bit nanosecond count. -/
structure Timestamp where
  nsecs : Nat
deriving DecidableEq

/-- Model of `impl From<u64> for Timestamp`. -/
def Timestamp.fromU64 (v : Nat) : Timestamp :=
  ⟨v⟩

/-- Comparison generated by the derived `Ord` on the single-field struct
`Timestamp`: the comparison of the wrapped integers. -/
def Timestamp.cmp (a b : Timestamp) : Ordering :=
  compare a.nsecs b.nsecs

/-- A 3-vector of doubles (`nalgebra::Vector3<f64>`). -/
structure Vec3 where
  x : Rat
  y : Rat
  z : Rat
deriving DecidableEq

/-- A quaternion of doubles; `nalgebra::Quaternion::new` takes (w, x, y, z). -/
structure Quat where
  w : Rat
  x : Rat
  y : Rat
  z : Rat
deriving DecidableEq

/-- Model of `ImuRecord`. -/
structure ImuRecord where
  timestamp : Timestamp
  gyro : Vec3
  accel : Vec3
deriving DecidableEq

/-- Model of `GroundTruthRecord`. -/
structure GroundTruthRecord where
  timestamp : Timestamp
  position : Vec3
  quaternion : Quat
  velocity : Vec3
  gyro : Vec3
  accel : Vec3
deriving DecidableEq

/-- Model of `PositionRecord`. -/
structure PositionRecord where
  timestamp : Timestamp
  position : Vec3
deriving DecidableEq

/-- Model of `ImageRecord`. -/
structure ImageRecord where
  timestamp : Timestamp
  image : Image
deriving DecidableEq

/-- Model of `row[i]` on a `csv::StringRecord`: panics when the column index
is out of bounds. -/
def rowCol (row : List String) (i : Nat) : Res String :=
  match row.get? i with
  | some s => .ok s
  | none => .panicked

/-- Model of `row[i].parse::<u64>()?`. -/
def colU64 (row : List String) (i : Nat) : Res Nat :=
  (rowCol row i).bind fun s =>
  match parseU64 s with
  | some n => .ok n
  | none => .err .parseIntCol

/-- Model of `row[i].parse::<f64>()?`. -/
def colF64 (row : List String) (i : Nat) : Res Rat :=
  (rowCol row i).bind fun s =>
  match parseF64 s with
  | some q => .ok q
  | none => .err .parseFloatCol

deriving instance DecidableEq for Except

/-- Body of `ImuIterator::next` applied to one yielded CSV item: a CSV-level
error propagates via `?`; otherwise columns 0..6 are indexed and parsed in
source order. -/
def imuParseRow : Except Err (List String) → Res ImuRecord
  | .error e => .err e
  | .ok row =>
    (colU64 row 0).bind fun ts =>
    (colF64 row 1).bind fun gx =>
    (colF64 row 2).bind fun gy =>
    (colF64 row 3).bind fun gz =>
    (colF64 row 4).bind fun ax =>
    (colF64 row 5).bind fun ay =>
    (colF64 row 6).bind fun az =>
    .ok ⟨Timestamp.fromU64 ts, ⟨gx, gy, gz⟩, ⟨ax, ay, az⟩⟩

/-- Model of `ImuIterator`: the CSV items not yet consumed. -/
structure ImuIterator where
  items : List (Except Err (List String))
deriving DecidableEq

/-- Model of `ImuIterator::next`: `None` at end of stream, otherwise the
parse outcome of the next row, consuming it. -/
def ImuIterator.next (it : ImuIterator) : Option (Res ImuRecord) × ImuIterator :=
  match it.items with
  | [] => (none, it)
  | item :: rest => (some (imuParseRow item), ⟨rest⟩)

/-- Model of `ImuData::records`: open `data.csv` (failing with an `Io` error)
and wrap it in a CSV reader. -/
def ImuData.records (d : ImuData) : Except Err ImuIterator :=
  match d.fs.dataCsv with
  | none => .error .ioOpen
  | some rows => .ok ⟨csvItems rows⟩

/-- The full sequence of results an `ImuIterator` yields before returning
`None`. -/
def drainImuItems : List (Except Err (List String)) → List (Res ImuRecord)
  | [] => []
  | item :: rest => imuParseRow item :: drainImuItems rest

/-- The sequence of `next()` results of an IMU iterator. -/
def ImuIterator.drain (it : ImuIterator) : List (Res ImuRecord) :=
  drainImuItems it.items

/-- Body of `GroundTruthIterator::next` applied to one yielded CSV item:
columns 0..16 in source order (timestamp, position, quaternion w-x-y-z,
velocity, gyro, accel). -/
def gtParseRow : Except Err (List String) → Res GroundTruthRecord
  | .error e => .err e
  | .ok row =>
    (colU64 row 0).bind fun ts =>
    (colF64 row 1).bind fun px =>
    (colF64 row 2).bind fun py =>
    (colF64 row 3).bind fun pz =>
    (colF64 row 4).bind fun qw =>
    (colF64 row 5).bind fun qx =>
    (colF64 row 6).bind fun qy =>
    (colF64 row 7).bind fun qz =>
    (colF64 row 8).bind fun vx =>
    (colF64 row 9).bind fun vy =>
    (colF64 row 10).bind fun vz =>
    (colF64 row 11).bind fun gx =>
    (colF64 row 12).bind fun gy =>
    (colF64 row 13).bind fun gz =>
    (colF64 row 14).bind fun ax =>
    (colF64 row 15).bind fun ay =>
    (colF64 row 16).bind fun az =>
    .ok ⟨Timestamp.fromU64 ts, ⟨px, py, pz⟩, ⟨qw, qx, qy, qz⟩, ⟨vx, vy, vz⟩,
      ⟨gx, gy, gz⟩, ⟨ax, ay, az⟩⟩

/-- Model of `GroundTruthIterator`. -/
structure GroundTruthIterator where
  items : List (Except Err (List String))
deriving DecidableEq

/-- Model of `GroundTruthIterator::next`. -/
def GroundTruthIterator.next (it : GroundTruthIterator) :
    Option (Res GroundTruthRecord) × GroundTruthIterator :=
  match it.items with
  | [] => (none, it)
  | item :: rest => (some (gtParseRow item), ⟨rest⟩)

/-- Model of `GroundTruthData::records`. -/
def GroundTruthData.records (d : GroundTruthData) : Except Err GroundTruthIterator :=
  match d.fs.dataCsv with
  | none => .error .ioOpen
  | some rows => .ok ⟨csvItems rows⟩

/-- Body of `PositionIterator::next` applied to one yielded CSV item. -/
def positionParseRow : Except Err (List String) → Res PositionRecord
  | .error e => .err e
  | .ok row =>
    (colU64 row 0).bind fun ts =>
    (colF64 row 1).bind fun px =>
    (colF64 row 2).bind fun py =>
    (colF64 row 3).bind fun pz =>
    .ok ⟨Timestamp.fromU64 ts, ⟨px, py, pz⟩⟩

/-- Model of `PositionIterator`. -/
structure PositionIterator where
  items : List (Except Err (List String))
deriving DecidableEq

/-- Model of `PositionIterator::next`. -/
def PositionIterator.next (it : PositionIterator) :
    Option (Res PositionRecord) × PositionIterator :=
  match it.items with
  | [] => (none, it)
  | item :: rest => (some (positionParseRow item), ⟨rest⟩)

/-- Model of `PositionData::records`. -/
def PositionData.records (d : PositionData) : Except Err PositionIterator :=
  match d.fs.dataCsv with
  | none => .error .ioOpen
  | some rows => .ok ⟨csvItems rows⟩

/-- Body of `ImageIterator::next` applied to one yielded CSV item: parse the
timestamp from column 0, then open the image named by column 1 relative to
the `data/` directory; a missing or undecodable image is a returned error. -/
def imageParseRow (images : String → Option Image) :
    Except Err (List String) → Res ImageRecord
  | .error e => .err e
  | .ok row =>
    (colU64 row 0).bind fun ts =>
    (rowCol row 1).bind fun fname =>
    match images fname with
    | some img => .ok ⟨Timestamp.fromU64 ts, img⟩
    | none => .err .imageOpen

/-- Model of `ImageIterator`: the `data/` directory contents and the CSV
items not yet consumed. -/
structure ImageIterator where
  images : String → Option Image
  items : List (Except Err (List String))

/-- Model of `ImageIterator::next`. -/
def ImageIterator.next (it : ImageIterator) :
    Option (Res ImageRecord) × ImageIterator :=
  match it.items with
  | [] => (none, it)
  | item :: rest => (some (imageParseRow it.images item), ⟨it.images, rest⟩)

/-- Model of `CameraRecords::records`: open `data.csv` (failing with an `Io`
error), wrap it in a CSV reader and record the `data/` image directory. -/
def CameraRecords.records (cam : CameraRecords) : Except Err ImageIterator :=
  match cam.fs.dataCsv with
  | none => .error .ioOpen
  | some rows => .ok ⟨cam.fs.images, csvItems rows⟩

/-- The sequence of `next()` results of a camera iterator. -/
def drainImageItems (images : String → Option Image) :
    List (Except Err (List String)) → List (Res ImageRecord)
  | [] => []
  | item :: rest => imageParseRow images item :: drainImageItems images rest

/-- The sequence of `next()` results of a camera iterator. -/
def ImageIterator.drain (it : ImageIterator) : List (Res ImageRecord) :=
  drainImageItems it.images it.items

/-- A world threading explicit call state: the (unmodified) folder contents
and a count of the file reads performed so far.  Accessor calls are modelled
as state transformers on it. -/
structure World where
  folder : FolderFS
  reads : Nat

/-- One accessor call in the world: re-read the backing files of `folder`
(incrementing the read count) and return the accessor's result. -/
def accessorCall (g : FolderFS → α) (w : World) : α × World :=
  (g w.folder, ⟨w.folder, w.reads + 1⟩)

/-- The record sequence a fresh `ImuData::records` call yields, per folder
contents. -/
def imuRecordsDrain (f : FolderFS) : Except Err (List (Res ImuRecord)) :=
  Except.map ImuIterator.drain (ImuData.records ⟨f⟩)

/-- The record sequence a fresh `CameraRecords::records` call yields, per
folder contents. -/
def cameraRecordsDrain (f : FolderFS) : Except Err (List (Res ImageRecord)) :=
  Except.map ImageIterator.drain (CameraRecords.records ⟨f⟩)

/-- Outcome kind of a layout validation, forgetting the façade payload. -/
def layoutOutcome : Except LayoutErr α → Option LayoutErr
  | .ok _ => none
  | .error e => some e

/-- A descriptor document holding every key the library consumes. -/
def descriptorDoc : Yaml := .hash
  [("resolution", .arr [.int 752, .int 480]),
   ("intrinsics", .arr [.real 2, .real 3, .real 5, .real 7]),
   ("distortion_coefficients", .arr [.real 1, .real 2, .real 3, .real 4]),
   ("T_BS", .hash [("data", .arr (List.replicate 15 (Yaml.real 0) ++ [Yaml.real 1]))]),
   ("gyroscope_noise_density", .real 1),
   ("gyroscope_random_walk", .real 2),
   ("accelerometer_noise_density", .real 3),
   ("accelerometer_random_walk", .real 4)]

/-- A well-formed camera sensor folder fixture. -/
def camFolder : FolderFS :=
  { isDir := true, dataIsDir := true, dataCsvIsFile := true, sensorYamlIsFile := true,
    sensorYaml := .docs [descriptorDoc],
    dataCsv := some [["ts", "filename"], ["1", "img0.png"], ["2", "img1.png"]],
    images := fun s => if s = "img0.png" || s = "img1.png" then some ⟨752, 480⟩ else none }

/-- The header row of the IMU log fixture. -/
def imuHdrW : List String := ["t", "gx", "gy", "gz", "ax", "ay", "az"]

/-- The data rows of the IMU log fixture. -/
def imuRowsW : List (List String) :=
  [["1", "2.0", "3.0", "4.0", "5.0", "6.0", "7.0"],
   ["2", "8.0", "9.0", "10.0", "11.0", "12.0", "13.0"]]

/-- A well-formed IMU sensor folder fixture sharing `camFolder`'s
descriptor. -/
def imuFolder : FolderFS :=
  { camFolder with dataCsv := some (imuHdrW :: imuRowsW) }

/-- The iterator a `records()` call on `imuFolder` constructs. -/
def imuItW : ImuIterator := ⟨csvItems (imuHdrW :: imuRowsW)⟩

/-- Folder whose `sensor.yaml` parses to zero documents. -/
def emptyYamlFolder : FolderFS := { camFolder with sensorYaml := .docs [] }

/-- Folder whose descriptor is an empty hash: every consumed key is
absent. -/
def noKeysFolder : FolderFS := { camFolder with sensorYaml := .docs [.hash []] }

/-- Folder whose `resolution` key holds a scalar instead of a sequence. -/
def wrongTypeFolder : FolderFS :=
  { camFolder with sensorYaml := .docs [.hash [("resolution", .str "a")]] }

/-- Folder whose `resolution` sequence has length 3 instead of 2. -/
def wrongLenFolder : FolderFS :=
  { camFolder with sensorYaml := .docs [.hash [("resolution", .arr [.int 1, .int 2, .int 3])]] }

/-- Folder whose `resolution` holds a negative component: narrowing to `u32`
is lossy. -/
def negResFolder : FolderFS :=
  { camFolder with sensorYaml := .docs [.hash [("resolution", .arr [.int 752, .int (-1)])]] }

/-- Folder whose `resolution` holds a component equal to 2 to the 32nd power:
too large for `u32`. -/
def hugeResFolder : FolderFS :=
  { camFolder with sensorYaml := .docs [.hash [("resolution", .arr [.int 752, .int 4294967296])]] }

/-- A candidate path that is not a directory. -/
def notDirFolder : FolderFS := { camFolder with isDir := false }

/-- A validated folder whose `data.csv` fails to open at `records()` time. -/
def noCsvOpenFolder : FolderFS := { camFolder with dataCsv := none }

/-- An IMU iterator holding one row, with seven columns whose second cell is
not numeric. -/
def imuBadCellIt : ImuIterator :=
  ⟨[Except.ok ["1", "x", "3.0", "4.0", "5.0", "6.0", "7.0"]]⟩

/-- A ground-truth iterator holding one row, with seventeen columns whose
sixth cell is not numeric. -/
def gtBadCellIt : GroundTruthIterator :=
  ⟨[Except.ok ["1", "1.0", "2.0", "3.0", "0.5", "oops", "0.1", "0.2", "0.3",
    "0.4", "0.5", "0.6", "0.7", "0.8", "0.9", "1.1", "1.2"]]⟩

/-- A camera iterator over a log whose first data row has a malformed
timestamp and whose second is well-formed. -/
def camItW : ImageIterator :=
  ⟨camFolder.images, csvItems [["ts", "filename"], ["bad", "img0.png"], ["2", "img1.png"]]⟩

@[simp] theorem Res.bind_ok (a : α) (f : α → Res β) : (Res.ok a).bind f = f a := rfl

@[simp] theorem Res.bind_err (e : Err) (f : α → Res β) :
    (Res.err e : Res α).bind f = Res.err e := rfl

@[simp] theorem Res.bind_panicked (f : α → Res β) :
    (Res.panicked : Res α).bind f = Res.panicked := rfl

/-- Draining a mapped item list parses each underlying element in order. -/
theorem drainImuItems_map (l : List α) (f : α → Except Err (List String)) :
    drainImuItems (l.map f) = l.map fun a => imuParseRow (f a) := by
  induction l with
  | nil => rfl
  | cons x xs ih => simp [drainImuItems, ih]

/-- The drain of an IMU iterator is the stream of its `next()` results. -/
theorem ImuIterator.drain_eq_next (it : ImuIterator) :
    it.drain =
      match (it.next).1 with
      | none => []
      | some r => r :: ((it.next).2).drain := by
  cases h : it.items <;> simp [ImuIterator.drain, ImuIterator.next, h, drainImuItems]

/-- C1: the spec requires every calibration accessor to return a `Malformed`
error on a malformed descriptor (parser yields zero documents, fixed key
path absent, wrong value type, wrong sequence length); the code instead
reaches the condition through unchecked access (`Vec` indexing, `unwrap`,
`assert!`) and panics.  This theorem evaluates the embedded accessors at
such descriptors and observes the panic outcome rather than a returned
error. -/
theorem accessor_malformed_descriptor_panics :
    (CameraRecords.mk emptyYamlFolder).image_size = Res.panicked
    ∧ (CameraRecords.mk noKeysFolder).image_size = Res.panicked
    ∧ (CameraRecords.mk wrongTypeFolder).image_size = Res.panicked
    ∧ (CameraRecords.mk wrongLenFolder).image_size = Res.panicked
    ∧ (CameraRecords.mk noKeysFolder).intrinsics = Res.panicked
    ∧ (CameraRecords.mk noKeysFolder).distrotion_coeff = Res.panicked
    ∧ (CameraRecords.mk noKeysFolder).extrinsics = Res.panicked
    ∧ (ImuData.mk noKeysFolder).gyro_noise_density = Res.panicked
    ∧ (ImuData.mk noKeysFolder).gyro_random_walk = Res.panicked
    ∧ (ImuData.mk noKeysFolder).accel_noise_density = Res.panicked
    ∧ (ImuData.mk noKeysFolder).accel_random_walk = Res.panicked
    ∧ (GroundTruthData.mk noKeysFolder).extrinsics = Res.panicked
    ∧ (PositionData.mk noKeysFolder).extrinsics = Res.panicked := by
  decide

/-- C6: the spec requires `image_size` to fail with an `OutOfRange` error
when narrowing a resolution component to `u32` loses information; the code
unwraps `try_into()` and panics instead.  Evaluated at a negative and at a
too-large component; the in-range fixture still succeeds. -/
theorem image_size_lossy_narrowing_panics :
    (CameraRecords.mk negResFolder).image_size = Res.panicked
    ∧ (CameraRecords.mk hugeResFolder).image_size = Res.panicked
    ∧ (CameraRecords.mk camFolder).image_size = Res.ok (752, 480) := by
  decide

/-- C7: `camera_matrix` is a pure function of the four values `intrinsics()`
yields, packing them into the pinhole matrix with ones and zeros elsewhere. -/
theorem camera_matrix_packs_intrinsics (cam : CameraRecords) (fu fv cu cv : Rat)
    (h : cam.intrinsics = Res.ok (fu, fv, cu, cv)) :
    ∃ M : Mat3, cam.camera_matrix = Res.ok M
      ∧ M.m00 = fu ∧ M.m11 = fv ∧ M.m02 = cu ∧ M.m12 = cv ∧ M.m22 = 1
      ∧ M.m01 = 0 ∧ M.m10 = 0 ∧ M.m20 = 0 ∧ M.m21 = 0 := by
  refine ⟨⟨fu, 0, cu, 0, fv, cv, 0, 0, 1⟩, ?_, rfl, rfl, rfl, rfl, rfl, rfl, rfl, rfl, rfl⟩
  simp [CameraRecords.camera_matrix, h]

/-- Witness for C7 at the concrete camera fixture. -/
theorem camera_matrix_packs_intrinsics_witness :
    (CameraRecords.mk camFolder).intrinsics = Res.ok (2, 3, 5, 7)
    ∧ ∃ M : Mat3, (CameraRecords.mk camFolder).camera_matrix = Res.ok M
      ∧ M.m00 = 2 ∧ M.m11 = 3 ∧ M.m02 = 5 ∧ M.m12 = 7 ∧ M.m22 = 1
      ∧ M.m01 = 0 ∧ M.m10 = 0 ∧ M.m20 = 0 ∧ M.m21 = 0 :=
  ⟨by decide, camera_matrix_packs_intrinsics (CameraRecords.mk camFolder) 2 3 5 7 (by decide)⟩

/-- C10: `Timestamp::from` round-trips through `nsecs`, and the derived
ordering of two timestamps is exactly the ordering of the wrapped nanosecond
integers. -/
theorem timestamp_roundtrip_and_order (v a b : Nat)
    (hv : v < 2 ^ 64) (ha : a < 2 ^ 64) (hb : b < 2 ^ 64) :
    (Timestamp.fromU64 v).nsecs = v
    ∧ (Timestamp.cmp (Timestamp.fromU64 a) (Timestamp.fromU64 b) = Ordering.lt ↔ a < b) := by
  refine ⟨rfl, ?_⟩
  simp [Timestamp.cmp, Timestamp.fromU64, Nat.compare_eq_lt]

/-- Witness for C10 at concrete 64-bit values. -/
theorem timestamp_roundtrip_and_order_witness :
    (Timestamp.fromU64 1403636579768555520).nsecs = 1403636579768555520
    ∧ (Timestamp.cmp (Timestamp.fromU64 3) (Timestamp.fromU64 7) = Ordering.lt ↔ 3 < 7) :=
  timestamp_roundtrip_and_order 1403636579768555520 3 7 (by decide) (by decide) (by decide)

/-- C9: the four per-sensor `extrinsics()` implementations are extensionally
equivalent: on folders with identical descriptor content they look up the
same `T_BS.data` path, demand the same 16-element shape, and produce the
same row-major matrix or fail the same way. -/
theorem extrinsics_four_implementations_agree (f1 f2 f3 f4 : FolderFS)
    (h2 : f1.sensorYaml = f2.sensorYaml) (h3 : f1.sensorYaml = f3.sensorYaml)
    (h4 : f1.sensorYaml = f4.sensorYaml) :
    (CameraRecords.mk f1).extrinsics = (ImuData.mk f2).extrinsics
    ∧ (CameraRecords.mk f1).extrinsics = (GroundTruthData.mk f3).extrinsics
    ∧ (CameraRecords.mk f1).extrinsics = (PositionData.mk f4).extrinsics := by
  have l2 : f1.loadSensorYaml = f2.loadSensorYaml := by
    unfold FolderFS.loadSensorYaml
    rw [h2]
  have l3 : f1.loadSensorYaml = f3.loadSensorYaml := by
    unfold FolderFS.loadSensorYaml
    rw [h3]
  have l4 : f1.loadSensorYaml = f4.loadSensorYaml := by
    unfold FolderFS.loadSensorYaml
    rw [h4]
  refine ⟨?_, ?_, ?_⟩
  · simp only [CameraRecords.extrinsics, ImuData.extrinsics, l2]
  · simp only [CameraRecords.extrinsics, GroundTruthData.extrinsics, l3]
  · simp only [CameraRecords.extrinsics, PositionData.extrinsics, l4]

/-- Witness for C9: the camera folder and the IMU folder of the fixtures
share one descriptor; all four accessors agree there. -/
theorem extrinsics_four_implementations_agree_witness :
    (CameraRecords.mk camFolder).extrinsics = (ImuData.mk imuFolder).extrinsics
    ∧ (CameraRecords.mk camFolder).extrinsics = (GroundTruthData.mk camFolder).extrinsics
    ∧ (CameraRecords.mk camFolder).extrinsics = (PositionData.mk noCsvOpenFolder).extrinsics :=
  extrinsics_four_implementations_agree camFolder imuFolder camFolder noCsvOpenFolder rfl rfl rfl

/-- C4: camera iteration failures are per-item: whatever the outcome of the
row at the head (CSV structure error, numeric parse error, image decode
failure, or success), `next()` consumes exactly that row, and the following
`next()` call proceeds independently on the next row; a `data.csv` open
failure surfaces as an `Io` error at the `records()` call itself. -/
theorem camera_iteration_per_item_and_open_failure
    (it : ImageIterator) (item1 item2 : Except Err (List String))
    (rest : List (Except Err (List String)))
    (hitems : it.items = item1 :: item2 :: rest) :
    ((it.next).1 = some (imageParseRow it.images item1)
      ∧ ((it.next).2).next = (some (imageParseRow it.images item2), ⟨it.images, rest⟩))
    ∧ ∀ cam : CameraRecords, cam.fs.dataCsv = none →
        cam.records = Except.error Err.ioOpen := by
  constructor
  · constructor <;> simp [ImageIterator.next, hitems]
  · intro cam h
    simp [CameraRecords.records, h]

/-- Witness for C4: the first data row of `camItW` has a malformed
timestamp, yet the second `next()` call still parses the following row; the
open-failure folder errs at `records()`. -/
theorem camera_iteration_per_item_and_open_failure_witness :
    ((camItW.next).1 = some (imageParseRow camItW.images (Except.ok ["bad", "img0.png"]))
      ∧ ((camItW.next).2).next
        = (some (imageParseRow camItW.images (Except.ok ["2", "img1.png"])), ⟨camItW.images, []⟩))
    ∧ ∀ cam : CameraRecords, cam.fs.dataCsv = none →
        cam.records = Except.error Err.ioOpen :=
  camera_iteration_per_item_and_open_failure camItW
    (Except.ok ["bad", "img0.png"]) (Except.ok ["2", "img1.png"]) [] rfl

/-- C8: calibration accessors and `records()` are pure: modelling each call
as a state transformer that re-reads the unmodified folder, two worlds with
the same folder contents produce bit-identical accessor results and
identical record sequences, and a call leaves the folder unchanged — so two
consecutive calls of the same accessor agree. -/
theorem accessors_pure_idempotent (w w2 : World) (hf : w.folder = w2.folder) :
    (accessorCall (fun f => (CameraRecords.mk f).intrinsics) w).1
      = (accessorCall (fun f => (CameraRecords.mk f).intrinsics) w2).1
    ∧ (accessorCall (fun f => (CameraRecords.mk f).image_size) w).1
      = (accessorCall (fun f => (CameraRecords.mk f).image_size) w2).1
    ∧ (accessorCall (fun f => (CameraRecords.mk f).distrotion_coeff) w).1
      = (accessorCall (fun f => (CameraRecords.mk f).distrotion_coeff) w2).1
    ∧ (accessorCall (fun f => (CameraRecords.mk f).extrinsics) w).1
      = (accessorCall (fun f => (CameraRecords.mk f).extrinsics) w2).1
    ∧ (accessorCall (fun f => (CameraRecords.mk f).camera_matrix) w).1
      = (accessorCall (fun f => (CameraRecords.mk f).camera_matrix) w2).1
    ∧ (accessorCall (fun f => (ImuData.mk f).gyro_noise_density) w).1
      = (accessorCall (fun f => (ImuData.mk f).gyro_noise_density) w2).1
    ∧ (accessorCall (fun f => (ImuData.mk f).gyro_random_walk) w).1
      = (accessorCall (fun f => (ImuData.mk f).gyro_random_walk) w2).1
    ∧ (accessorCall (fun f => (ImuData.mk f).accel_noise_density) w).1
      = (accessorCall (fun f => (ImuData.mk f).accel_noise_density) w2).1
    ∧ (accessorCall (fun f => (ImuData.mk f).accel_random_walk) w).1
      = (accessorCall (fun f => (ImuData.mk f).accel_random_walk) w2).1
    ∧ (accessorCall imuRecordsDrain w).1 = (accessorCall imuRecordsDrain w2).1
    ∧ (accessorCall cameraRecordsDrain w).1 = (accessorCall cameraRecordsDrain w2).1
    ∧ (accessorCall (fun f => (CameraRecords.mk f).intrinsics) w).2.folder = w.folder := by
  simp [accessorCall, hf]

/-- Witness for C8: the world after a first accessor call on the camera
fixture has the same folder, so the theorem applied to the two worlds states
that the second call returns the same results as the first. -/
theorem accessors_pure_idempotent_witness :
    (accessorCall (fun f => (CameraRecords.mk f).intrinsics) ⟨camFolder, 0⟩).1
      = (accessorCall (fun f => (CameraRecords.mk f).intrinsics) ⟨camFolder, 1⟩).1
    ∧ (accessorCall imuRecordsDrain ⟨camFolder, 0⟩).1
      = (accessorCall imuRecordsDrain ⟨camFolder, 1⟩).1 :=
  ⟨(accessors_pure_idempotent ⟨camFolder, 0⟩ ⟨camFolder, 1⟩ rfl).1,
   (accessors_pure_idempotent ⟨camFolder, 0⟩ ⟨camFolder, 1⟩ rfl).2.2.2.2.2.2.2.2.2.1⟩

/-- C5: façade construction succeeds exactly on a directory holding the
required entries (`sensor.yaml`, `data.csv`, and for cameras the `data/`
subdirectory); otherwise it fails with an error naming the first missing
required entry, and the outcome depends only on the existence flags — no
file content is parsed. -/
theorem facade_construction_validates_layout (f g : FolderFS) :
    (f.isDir = true → f.dataIsDir = true → f.dataCsvIsFile = true →
      f.sensorYamlIsFile = true → CameraRecords.new f = Except.ok ⟨f⟩)
    ∧ (f.isDir = false → CameraRecords.new f = Except.error LayoutErr.notDir)
    ∧ (f.isDir = true → f.dataIsDir = false →
        CameraRecords.new f = Except.error LayoutErr.dataNotDir)
    ∧ (f.isDir = true → f.dataIsDir = true → f.dataCsvIsFile = false →
        CameraRecords.new f = Except.error LayoutErr.dataCsvNotFile)
    ∧ (f.isDir = true → f.dataIsDir = true → f.dataCsvIsFile = true →
        f.sensorYamlIsFile = false →
        CameraRecords.new f = Except.error LayoutErr.sensorYamlNotFile)
    ∧ (f.isDir = true → f.dataCsvIsFile = true → f.sensorYamlIsFile = true →
        ImuData.new f = Except.ok ⟨f⟩ ∧ GroundTruthData.new f = Except.ok ⟨f⟩
        ∧ PositionData.new f = Except.ok ⟨f⟩)
    ∧ (f.isDir = false →
        ImuData.new f = Except.error LayoutErr.notDir
        ∧ GroundTruthData.new f = Except.error LayoutErr.notDir
        ∧ PositionData.new f = Except.error LayoutErr.notDir)
    ∧ (f.isDir = true → f.dataCsvIsFile = false →
        ImuData.new f = Except.error LayoutErr.dataCsvNotFile
        ∧ GroundTruthData.new f = Except.error LayoutErr.dataCsvNotFile
        ∧ PositionData.new f = Except.error LayoutErr.dataCsvNotFile)
    ∧ (f.isDir = true → f.dataCsvIsFile = true → f.sensorYamlIsFile = false →
        ImuData.new f = Except.error LayoutErr.sensorYamlNotFile
        ∧ GroundTruthData.new f = Except.error LayoutErr.sensorYamlNotFile
        ∧ PositionData.new f = Except.error LayoutErr.sensorYamlNotFile)
    ∧ (f.isDir = g.isDir → f.dataIsDir = g.dataIsDir → f.dataCsvIsFile = g.dataCsvIsFile →
        f.sensorYamlIsFile = g.sensorYamlIsFile →
        layoutOutcome (CameraRecords.new f) = layoutOutcome (CameraRecords.new g)
        ∧ layoutOutcome (ImuData.new f) = layoutOutcome (ImuData.new g)) := by
  refine ⟨?_, ?_, ?_, ?_, ?_, ?_, ?_, ?_, ?_, ?_⟩
  · intro h1 h2 h3 h4
    simp [CameraRecords.new, h1, h2, h3, h4]
  · intro h1
    simp [CameraRecords.new, h1]
  · intro h1 h2
    simp [CameraRecords.new, h1, h2]
  · intro h1 h2 h3
    simp [CameraRecords.new, h1, h2, h3]
  · intro h1 h2 h3 h4
    simp [CameraRecords.new, h1, h2, h3, h4]
  · intro h1 h2 h3
    refine ⟨?_, ?_, ?_⟩ <;> simp [ImuData.new, GroundTruthData.new, PositionData.new, h1, h2, h3]
  · intro h1
    refine ⟨?_, ?_, ?_⟩ <;> simp [ImuData.new, GroundTruthData.new, PositionData.new, h1]
  · intro h1 h2
    refine ⟨?_, ?_, ?_⟩ <;> simp [ImuData.new, GroundTruthData.new, PositionData.new, h1, h2]
  · intro h1 h2 h3
    refine ⟨?_, ?_, ?_⟩ <;> simp [ImuData.new, GroundTruthData.new, PositionData.new, h1, h2, h3]
  · intro h1 h2 h3 h4
    simp only [CameraRecords.new, ImuData.new, h1, h2, h3, h4]
    constructor <;>
      (cases g.isDir <;> cases g.dataIsDir <;> cases g.dataCsvIsFile <;>
        cases g.sensorYamlIsFile <;> simp [layoutOutcome])

/-- Witness for C5: the complete fixture folder validates for all four
façades; the non-directory fixture fails with the error naming the missing
entry. -/
theorem facade_construction_validates_layout_witness :
    CameraRecords.new camFolder = Except.ok ⟨camFolder⟩
    ∧ ImuData.new camFolder = Except.ok ⟨camFolder⟩
    ∧ GroundTruthData.new camFolder = Except.ok ⟨camFolder⟩
    ∧ PositionData.new camFolder = Except.ok ⟨camFolder⟩
    ∧ CameraRecords.new notDirFolder = Except.error LayoutErr.notDir :=
  ⟨(facade_construction_validates_layout camFolder camFolder).1 rfl rfl rfl rfl,
   ((facade_construction_validates_layout camFolder camFolder).2.2.2.2.2.1 rfl rfl rfl).1,
   ((facade_construction_validates_layout camFolder camFolder).2.2.2.2.2.1 rfl rfl rfl).2.1,
   ((facade_construction_validates_layout camFolder camFolder).2.2.2.2.2.1 rfl rfl rfl).2.2,
   (facade_construction_validates_layout notDirFolder notDirFolder).2.1 rfl⟩

/-- C3: `records()` consumes the header row exactly once at construction,
yields the data rows in file order (the item at index `i` is the parse of
file row `i + 1`), the total count is the file row count minus one, and an
exhausted iterator signals a clean end of sequence rather than an error. -/
theorem records_header_order_length_termination
    (d : ImuData) (hdr : List String) (rows : List (List String)) (it : ImuIterator)
    (hfile : d.fs.dataCsv = some (hdr :: rows))
    (hrec : d.records = Except.ok it) :
    it.drain.length = (hdr :: rows).length - 1
    ∧ (∀ i, it.drain.get? i = (rows.get? i).map fun r =>
        imuParseRow (if r.length = hdr.length then Except.ok r else Except.error Err.csvRow))
    ∧ (∀ jt : ImuIterator, jt.items = [] → jt.next = (none, jt)) := by
  simp only [ImuData.records, hfile] at hrec
  have hit : it.items = csvItems (hdr :: rows) := by
    cases hrec
    rfl
  have hdrain : it.drain = rows.map fun r =>
      imuParseRow (if r.length = hdr.length then Except.ok r else Except.error Err.csvRow) := by
    rw [ImuIterator.drain, hit, csvItems, drainImuItems_map]
  refine ⟨?_, ?_, ?_⟩
  · rw [hdrain]
    simp
  · intro i
    rw [hdrain, List.get?_map]
  · intro jt hjt
    simp [ImuIterator.next, hjt]

/-- Witness for C3 at the IMU fixture log (one header row, two data rows). -/
theorem records_header_order_length_termination_witness :
    imuItW.drain.length = (imuHdrW :: imuRowsW).length - 1
    ∧ imuItW.drain.get? 0 = (imuRowsW.get? 0).map fun r =>
        imuParseRow (if r.length = imuHdrW.length then Except.ok r else Except.error Err.csvRow) :=
  ⟨(records_header_order_length_termination ⟨imuFolder⟩ imuHdrW imuRowsW imuItW rfl rfl).1,
   (records_header_order_length_termination ⟨imuFolder⟩ imuHdrW imuRowsW imuItW rfl rfl).2.1 0⟩

/-- A numeric parse failure in one of the seven layout columns of an IMU
row whose column count covers the layout makes the row parse to a returned
parse error, never a panic and never a default. -/
theorem imuParseRow_num_fail (c0 c1 c2 c3 c4 c5 c6 : String) (tl : List String)
    (hfail : parseU64 c0 = none ∨ parseF64 c1 = none ∨ parseF64 c2 = none ∨ parseF64 c3 = none ∨ parseF64 c4 = none ∨ parseF64 c5 = none ∨ parseF64 c6 = none) :
    ∃ e, (e = Err.parseIntCol ∨ e = Err.parseFloatCol) ∧
      imuParseRow (Except.ok (c0 :: c1 :: c2 :: c3 :: c4 :: c5 :: c6 :: tl)) = Res.err e := by
  have r0 : rowCol (c0 :: c1 :: c2 :: c3 :: c4 :: c5 :: c6 :: tl) 0 = Res.ok c0 := rfl
  have r1 : rowCol (c0 :: c1 :: c2 :: c3 :: c4 :: c5 :: c6 :: tl) 1 = Res.ok c1 := rfl
  have r2 : rowCol (c0 :: c1 :: c2 :: c3 :: c4 :: c5 :: c6 :: tl) 2 = Res.ok c2 := rfl
  have r3 : rowCol (c0 :: c1 :: c2 :: c3 :: c4 :: c5 :: c6 :: tl) 3 = Res.ok c3 := rfl
  have r4 : rowCol (c0 :: c1 :: c2 :: c3 :: c4 :: c5 :: c6 :: tl) 4 = Res.ok c4 := rfl
  have r5 : rowCol (c0 :: c1 :: c2 :: c3 :: c4 :: c5 :: c6 :: tl) 5 = Res.ok c5 := rfl
  have r6 : rowCol (c0 :: c1 :: c2 :: c3 :: c4 :: c5 :: c6 :: tl) 6 = Res.ok c6 := rfl
  cases h0 : parseU64 c0 with
  | none =>
    exact ⟨Err.parseIntCol, Or.inl rfl, by
      simp [imuParseRow, colU64, colF64, r0, r1, r2, r3, r4, r5, r6, h0]⟩
  | some t0 =>
    cases h1 : parseF64 c1 with
    | none =>
      exact ⟨Err.parseFloatCol, Or.inr rfl, by
        simp [imuParseRow, colU64, colF64, r0, r1, r2, r3, r4, r5, r6, h0, h1]⟩
    | some t1 =>
      cases h2 : parseF64 c2 with
      | none =>
        exact ⟨Err.parseFloatCol, Or.inr rfl, by
          simp [imuParseRow, colU64, colF64, r0, r1, r2, r3, r4, r5, r6, h0, h1, h2]⟩
      | some t2 =>
        cases h3 : parseF64 c3 with
        | none =>
          exact ⟨Err.parseFloatCol, Or.inr rfl, by
            simp [imuParseRow, colU64, colF64, r0, r1, r2, r3, r4, r5, r6, h0, h1, h2, h3]⟩
        | some t3 =>
          cases h4 : parseF64 c4 with
          | none =>
            exact ⟨Err.parseFloatCol, Or.inr rfl, by
              simp [imuParseRow, colU64, colF64, r0, r1, r2, r3, r4, r5, r6, h0, h1, h2, h3, h4]⟩
          | some t4 =>
            cases h5 : parseF64 c5 with
            | none =>
              exact ⟨Err.parseFloatCol, Or.inr rfl, by
                simp [imuParseRow, colU64, colF64, r0, r1, r2, r3, r4, r5, r6, h0, h1, h2, h3, h4, h5]⟩
            | some t5 =>
              cases h6 : parseF64 c6 with
              | none =>
                exact ⟨Err.parseFloatCol, Or.inr rfl, by
                  simp [imuParseRow, colU64, colF64, r0, r1, r2, r3, r4, r5, r6, h0, h1, h2, h3, h4, h5, h6]⟩
              | some t6 =>
                exfalso
                simp [h0, h1, h2, h3, h4, h5, h6] at hfail

/-- A numeric parse failure in one of the seventeen layout columns of a
ground-truth row whose column count covers the layout makes the row parse
to a returned parse error. -/
theorem gtParseRow_num_fail (d0 d1 d2 d3 d4 d5 d6 d7 d8 d9 d10 d11 d12 d13 d14 d15 d16 : String) (tl : List String)
    (hfail : parseU64 d0 = none ∨ parseF64 d1 = none ∨ parseF64 d2 = none ∨ parseF64 d3 = none ∨ parseF64 d4 = none ∨ parseF64 d5 = none ∨ parseF64 d6 = none ∨ parseF64 d7 = none ∨ parseF64 d8 = none ∨ parseF64 d9 = none ∨ parseF64 d10 = none ∨ parseF64 d11 = none ∨ parseF64 d12 = none ∨ parseF64 d13 = none ∨ parseF64 d14 = none ∨ parseF64 d15 = none ∨ parseF64 d16 = none) :
    ∃ e, (e = Err.parseIntCol ∨ e = Err.parseFloatCol) ∧
      gtParseRow (Except.ok (d0 :: d1 :: d2 :: d3 :: d4 :: d5 :: d6 :: d7 :: d8 :: d9 :: d10 :: d11 :: d12 :: d13 :: d14 :: d15 :: d16 :: tl)) = Res.err e := by
  have r0 : rowCol (d0 :: d1 :: d2 :: d3 :: d4 :: d5 :: d6 :: d7 :: d8 :: d9 :: d10 :: d11 :: d12 :: d13 :: d14 :: d15 :: d16 :: tl) 0 = Res.ok d0 := rfl
  have r1 : rowCol (d0 :: d1 :: d2 :: d3 :: d4 :: d5 :: d6 :: d7 :: d8 :: d9 :: d10 :: d11 :: d12 :: d13 :: d14 :: d15 :: d16 :: tl) 1 = Res.ok d1 := rfl
  have r2 : rowCol (d0 :: d1 :: d2 :: d3 :: d4 :: d5 :: d6 :: d7 :: d8 :: d9 :: d10 :: d11 :: d12 :: d13 :: d14 :: d15 :: d16 :: tl) 2 = Res.ok d2 := rfl
  have r3 : rowCol (d0 :: d1 :: d2 :: d3 :: d4 :: d5 :: d6 :: d7 :: d8 :: d9 :: d10 :: d11 :: d12 :: d13 :: d14 :: d15 :: d16 :: tl) 3 = Res.ok d3 := rfl
  have r4 : rowCol (d0 :: d1 :: d2 :: d3 :: d4 :: d5 :: d6 :: d7 :: d8 :: d9 :: d10 :: d11 :: d12 :: d13 :: d14 :: d15 :: d16 :: tl) 4 = Res.ok d4 := rfl
  have r5 : rowCol (d0 :: d1 :: d2 :: d3 :: d4 :: d5 :: d6 :: d7 :: d8 :: d9 :: d10 :: d11 :: d12 :: d13 :: d14 :: d15 :: d16 :: tl) 5 = Res.ok d5 := rfl
  have r6 : rowCol (d0 :: d1 :: d2 :: d3 :: d4 :: d5 :: d6 :: d7 :: d8 :: d9 :: d10 :: d11 :: d12 :: d13 :: d14 :: d15 :: d16 :: tl) 6 = Res.ok d6 := rfl
  have r7 : rowCol (d0 :: d1 :: d2 :: d3 :: d4 :: d5 :: d6 :: d7 :: d8 :: d9 :: d10 :: d11 :: d12 :: d13 :: d14 :: d15 :: d16 :: tl) 7 = Res.ok d7 := rfl
  have r8 : rowCol (d0 :: d1 :: d2 :: d3 :: d4 :: d5 :: d6 :: d7 :: d8 :: d9 :: d10 :: d11 :: d12 :: d13 :: d14 :: d15 :: d16 :: tl) 8 = Res.ok d8 := rfl
  have r9 : rowCol (d0 :: d1 :: d2 :: d3 :: d4 :: d5 :: d6 :: d7 :: d8 :: d9 :: d10 :: d11 :: d12 :: d13 :: d14 :: d15 :: d16 :: tl) 9 = Res.ok d9 := rfl
  have r10 : rowCol (d0 :: d1 :: d2 :: d3 :: d4 :: d5 :: d6 :: d7 :: d8 :: d9 :: d10 :: d11 :: d12 :: d13 :: d14 :: d15 :: d16 :: tl) 10 = Res.ok d10 := rfl
  have r11 : rowCol (d0 :: d1 :: d2 :: d3 :: d4 :: d5 :: d6 :: d7 :: d8 :: d9 :: d10 :: d11 :: d12 :: d13 :: d14 :: d15 :: d16 :: tl) 11 = Res.ok d11 := rfl
  have r12 : rowCol (d0 :: d1 :: d2 :: d3 :: d4 :: d5 :: d6 :: d7 :: d8 :: d9 :: d10 :: d11 :: d12 :: d13 :: d14 :: d15 :: d16 :: tl) 12 = Res.ok d12 := rfl
  have r13 : rowCol (d0 :: d1 :: d2 :: d3 :: d4 :: d5 :: d6 :: d7 :: d8 :: d9 :: d10 :: d11 :: d12 :: d13 :: d14 :: d15 :: d16 :: tl) 13 = Res.ok d13 := rfl
  have r14 : rowCol (d0 :: d1 :: d2 :: d3 :: d4 :: d5 :: d6 :: d7 :: d8 :: d9 :: d10 :: d11 :: d12 :: d13 :: d14 :: d15 :: d16 :: tl) 14 = Res.ok d14 := rfl
  have r15 : rowCol (d0 :: d1 :: d2 :: d3 :: d4 :: d5 :: d6 :: d7 :: d8 :: d9 :: d10 :: d11 :: d12 :: d13 :: d14 :: d15 :: d16 :: tl) 15 = Res.ok d15 := rfl
  have r16 : rowCol (d0 :: d1 :: d2 :: d3 :: d4 :: d5 :: d6 :: d7 :: d8 :: d9 :: d10 :: d11 :: d12 :: d13 :: d14 :: d15 :: d16 :: tl) 16 = Res.ok d16 := rfl
  cases h0 : parseU64 d0 with
  | none =>
    exact ⟨Err.parseIntCol, Or.inl rfl, by
      simp [gtParseRow, colU64, colF64, r0, r1, r2, r3, r4, r5, r6, r7, r8, r9, r10, r11, r12, r13, r14, r15, r16, h0]⟩
  | some t0 =>
    cases h1 : parseF64 d1 with
    | none =>
      exact ⟨Err.parseFloatCol, Or.inr rfl, by
        simp [gtParseRow, colU64, colF64, r0, r1, r2, r3, r4, r5, r6, r7, r8, r9, r10, r11, r12, r13, r14, r15, r16, h0, h1]⟩
    | some t1 =>
      cases h2 : parseF64 d2 with
      | none =>
        exact ⟨Err.parseFloatCol, Or.inr rfl, by
          simp [gtParseRow, colU64, colF64, r0, r1, r2, r3, r4, r5, r6, r7, r8, r9, r10, r11, r12, r13, r14, r15, r16, h0, h1, h2]⟩
      | some t2 =>
        cases h3 : parseF64 d3 with
        | none =>
          exact ⟨Err.parseFloatCol, Or.inr rfl, by
            simp [gtParseRow, colU64, colF64, r0, r1, r2, r3, r4, r5, r6, r7, r8, r9, r10, r11, r12, r13, r14, r15, r16, h0, h1, h2, h3]⟩
        | some t3 =>
          cases h4 : parseF64 d4 with
          | none =>
            exact ⟨Err.parseFloatCol, Or.inr rfl, by
              simp [gtParseRow, colU64, colF64, r0, r1, r2, r3, r4, r5, r6, r7, r8, r9, r10, r11, r12, r13, r14, r15, r16, h0, h1, h2, h3, h4]⟩
          | some t4 =>
            cases h5 : parseF64 d5 with
            | none =>
              exact ⟨Err.parseFloatCol, Or.inr rfl, by
                simp [gtParseRow, colU64, colF64, r0, r1, r2, r3, r4, r5, r6, r7, r8, r9, r10, r11, r12, r13, r14, r15, r16, h0, h1, h2, h3, h4, h5]⟩
            | some t5 =>
              cases h6 : parseF64 d6 with
              | none =>
                exact ⟨Err.parseFloatCol, Or.inr rfl, by
                  simp [gtParseRow, colU64, colF64, r0, r1, r2, r3, r4, r5, r6, r7, r8, r9, r10, r11, r12, r13, r14, r15, r16, h0, h1, h2, h3, h4, h5, h6]⟩
              | some t6 =>
                cases h7 : parseF64 d7 with
                | none =>
                  exact ⟨Err.parseFloatCol, Or.inr rfl, by
                    simp [gtParseRow, colU64, colF64, r0, r1, r2, r3, r4, r5, r6, r7, r8, r9, r10, r11, r12, r13, r14, r15, r16, h0, h1, h2, h3, h4, h5, h6, h7]⟩
                | some t7 =>
                  cases h8 : parseF64 d8 with
                  | none =>
                    exact ⟨Err.parseFloatCol, Or.inr rfl, by
                      simp [gtParseRow, colU64, colF64, r0, r1, r2, r3, r4, r5, r6, r7, r8, r9, r10, r11, r12, r13, r14, r15, r16, h0, h1, h2, h3, h4, h5, h6, h7, h8]⟩
                  | some t8 =>
                    cases h9 : parseF64 d9 with
                    | none =>
                      exact ⟨Err.parseFloatCol, Or.inr rfl, by
                        simp [gtParseRow, colU64, colF64, r0, r1, r2, r3, r4, r5, r6, r7, r8, r9, r10, r11, r12, r13, r14, r15, r16, h0, h1, h2, h3, h4, h5, h6, h7, h8, h9]⟩
                    | some t9 =>
                      cases h10 : parseF64 d10 with
                      | none =>
                        exact ⟨Err.parseFloatCol, Or.inr rfl, by
                          simp [gtParseRow, colU64, colF64, r0, r1, r2, r3, r4, r5, r6, r7, r8, r9, r10, r11, r12, r13, r14, r15, r16, h0, h1, h2, h3, h4, h5, h6, h7, h8, h9, h10]⟩
                      | some t10 =>
                        cases h11 : parseF64 d11 with
                        | none =>
                          exact ⟨Err.parseFloatCol, Or.inr rfl, by
                            simp [gtParseRow, colU64, colF64, r0, r1, r2, r3, r4, r5, r6, r7, r8, r9, r10, r11, r12, r13, r14, r15, r16, h0, h1, h2, h3, h4, h5, h6, h7, h8, h9, h10, h11]⟩
                        | some t11 =>
                          cases h12 : parseF64 d12 with
                          | none =>
                            exact ⟨Err.parseFloatCol, Or.inr rfl, by
                              simp [gtParseRow, colU64, colF64, r0, r1, r2, r3, r4, r5, r6, r7, r8, r9, r10, r11, r12, r13, r14, r15, r16, h0, h1, h2, h3, h4, h5, h6, h7, h8, h9, h10, h11, h12]⟩
                          | some t12 =>
                            cases h13 : parseF64 d13 with
                            | none =>
                              exact ⟨Err.parseFloatCol, Or.inr rfl, by
                                simp [gtParseRow, colU64, colF64, r0, r1, r2, r3, r4, r5, r6, r7, r8, r9, r10, r11, r12, r13, r14, r15, r16, h0, h1, h2, h3, h4, h5, h6, h7, h8, h9, h10, h11, h12, h13]⟩
                            | some t13 =>
                              cases h14 : parseF64 d14 with
                              | none =>
                                exact ⟨Err.parseFloatCol, Or.inr rfl, by
                                  simp [gtParseRow, colU64, colF64, r0, r1, r2, r3, r4, r5, r6, r7, r8, r9, r10, r11, r12, r13, r14, r15, r16, h0, h1, h2, h3, h4, h5, h6, h7, h8, h9, h10, h11, h12, h13, h14]⟩
                              | some t14 =>
                                cases h15 : parseF64 d15 with
                                | none =>
                                  exact ⟨Err.parseFloatCol, Or.inr rfl, by
                                    simp [gtParseRow, colU64, colF64, r0, r1, r2, r3, r4, r5, r6, r7, r8, r9, r10, r11, r12, r13, r14, r15, r16, h0, h1, h2, h3, h4, h5, h6, h7, h8, h9, h10, h11, h12, h13, h14, h15]⟩
                                | some t15 =>
                                  cases h16 : parseF64 d16 with
                                  | none =>
                                    exact ⟨Err.parseFloatCol, Or.inr rfl, by
                                      simp [gtParseRow, colU64, colF64, r0, r1, r2, r3, r4, r5, r6, r7, r8, r9, r10, r11, r12, r13, r14, r15, r16, h0, h1, h2, h3, h4, h5, h6, h7, h8, h9, h10, h11, h12, h13, h14, h15, h16]⟩
                                  | some t16 =>
                                    exfalso
                                    simp [h0, h1, h2, h3, h4, h5, h6, h7, h8, h9, h10, h11, h12, h13, h14, h15, h16] at hfail

/-- C2 counterexample: when the log's column count — set by its header and
shared by its rows, so the `csv` layer accepts them — is smaller than the
IMU layout's seven columns, `next()` panics on the out-of-bounds column
index instead of returning an error value.  Here the file has three columns
and all three cells are numeric. -/
theorem imu_short_column_layout_panics :
    (ImuIterator.mk (csvItems [["t", "gx", "gy"], ["1", "2.0", "3.0"]])).next
      = (some Res.panicked, ImuIterator.mk []) := by
  decide

/-- C2 (amended): for a yielded CSV row covering the sensor's fixed column
layout, a cell failing its numeric parse makes `next()` return a parse
error value at that row's position — the row is consumed, not skipped or
defaulted, and iteration continues on the remaining rows.  Stated for the
IMU layout (seven columns) and the ground-truth layout (seventeen
columns). -/
theorem iterator_numeric_parse_error_is_result_value
    (it : ImuIterator) (c0 c1 c2 c3 c4 c5 c6 : String) (tl : List String)
    (rest : List (Except Err (List String)))
    (hitems : it.items = Except.ok (c0 :: c1 :: c2 :: c3 :: c4 :: c5 :: c6 :: tl) :: rest)
    (hfail : parseU64 c0 = none ∨ parseF64 c1 = none ∨ parseF64 c2 = none ∨ parseF64 c3 = none
      ∨ parseF64 c4 = none ∨ parseF64 c5 = none ∨ parseF64 c6 = none)
    (jt : GroundTruthIterator)
    (d0 d1 d2 d3 d4 d5 d6 d7 d8 d9 d10 d11 d12 d13 d14 d15 d16 : String) (ul : List String)
    (rest2 : List (Except Err (List String)))
    (hitems2 : jt.items = Except.ok (d0 :: d1 :: d2 :: d3 :: d4 :: d5 :: d6 :: d7 :: d8 :: d9
      :: d10 :: d11 :: d12 :: d13 :: d14 :: d15 :: d16 :: ul) :: rest2)
    (hfail2 : parseU64 d0 = none ∨ parseF64 d1 = none ∨ parseF64 d2 = none ∨ parseF64 d3 = none
      ∨ parseF64 d4 = none ∨ parseF64 d5 = none ∨ parseF64 d6 = none ∨ parseF64 d7 = none
      ∨ parseF64 d8 = none ∨ parseF64 d9 = none ∨ parseF64 d10 = none ∨ parseF64 d11 = none
      ∨ parseF64 d12 = none ∨ parseF64 d13 = none ∨ parseF64 d14 = none ∨ parseF64 d15 = none
      ∨ parseF64 d16 = none) :
    (∃ e, (e = Err.parseIntCol ∨ e = Err.parseFloatCol)
      ∧ it.next = (some (Res.err e), ⟨rest⟩))
    ∧ ∃ e2, (e2 = Err.parseIntCol ∨ e2 = Err.parseFloatCol)
      ∧ jt.next = (some (Res.err e2), ⟨rest2⟩) := by
  obtain ⟨e, he, hrow⟩ := imuParseRow_num_fail c0 c1 c2 c3 c4 c5 c6 tl hfail
  obtain ⟨e2, he2, hrow2⟩ := gtParseRow_num_fail d0 d1 d2 d3 d4 d5 d6 d7 d8 d9 d10 d11 d12 d13
    d14 d15 d16 ul hfail2
  exact ⟨⟨e, he, by simp [ImuIterator.next, hitems, hrow]⟩,
    ⟨e2, he2, by simp [GroundTruthIterator.next, hitems2, hrow2]⟩⟩

/-- Witness for C2 (amended) at one-row fixtures: the IMU row's second cell
and the ground-truth row's sixth cell are not numeric. -/
theorem iterator_numeric_parse_error_is_result_value_witness :
    (∃ e, (e = Err.parseIntCol ∨ e = Err.parseFloatCol)
      ∧ imuBadCellIt.next = (some (Res.err e), ⟨[]⟩))
    ∧ ∃ e2, (e2 = Err.parseIntCol ∨ e2 = Err.parseFloatCol)
      ∧ gtBadCellIt.next = (some (Res.err e2), ⟨[]⟩) :=
  iterator_numeric_parse_error_is_result_value imuBadCellIt
    "1" "x" "3.0" "4.0" "5.0" "6.0" "7.0" [] [] rfl
    (Or.inr (Or.inl (by decide)))
    gtBadCellIt
    "1" "1.0" "2.0" "3.0" "0.5" "oops" "0.1" "0.2" "0.3" "0.4" "0.5" "0.6" "0.7" "0.8" "0.9"
    "1.1" "1.2" [] [] rfl
    (Or.inr (Or.inr (Or.inr (Or.inr (Or.inr (Or.inl (by decide)))))))
